import Mathlib

/-!
Verification of the laser-level-surmap measurement application.

The development shallowly embeds the program's core state and operations:
the cyclic measurement scheduler (`src/cycle.py`), the main-window
orchestration of acquisition commands, the sample table and CSV export
(`src/main.py`), and — where the repository only contains callers of the
acquisition core (`src.Core`, `src.s_server`, `src.utils` are imported but
their files are not part of the tree) — definitions modelled from the
specification's description of those components.

Floating point values are modelled by rationals; Qt integer spin boxes by
bounded integers; the Qt timer loop by an explicit fuel-indexed iteration.
-/

namespace LaserLevel

/-! ## Cyclic measurement scheduler (src/cycle.py) -/

/-- State of `CyclicMeasurementSetupWindow`: the elapsed-cycle counter and
whether `cycle_timer` is running. The spin-box values (cycle interval `I`
and total duration `D`, both in seconds) are passed as parameters since the
claims hold them constant for a run. -/
structure SchedState where
  elapsed_cycles : Nat
  running : Bool
deriving DecidableEq, Repr

/-- `start_cycle`: resets the counter to 0 and starts the timer
(cycle.py lines 70-79). -/
def start_cycle : SchedState :=
  { elapsed_cycles := 0, running := true }

/-- `on_timer_tick` (cycle.py lines 81-91): the trigger is emitted, the
counter is incremented, `max_cycles = D // I` is recomputed and the timer is
stopped once `elapsed_cycles >= max_cycles`. The emission itself is counted
by `runSched`. -/
def on_timer_tick (I D : Nat) (s : SchedState) : SchedState :=
  let e := s.elapsed_cycles + 1
  { elapsed_cycles := e, running := if D / I ≤ e then false else s.running }

/-- Iterate the timer: as long as the timer is running, each step fires one
trigger and applies `on_timer_tick`. Returns the number of triggers fired and
the final state. `fuel` bounds the iteration; all statements supply enough
fuel for the timer to reach its stopped state. -/
def runSched (I D : Nat) : Nat → SchedState → Nat × SchedState
  | 0, s => (0, s)
  | fuel + 1, s =>
    if s.running then
      let p := runSched I D fuel (on_timer_tick I D s)
      (p.1 + 1, p.2)
    else
      (0, s)

/-! ## Qt spin boxes (configuration surface, src/main.py lines 173-178) -/

/-- A `QSpinBox` with its range and current value. `setRange(lo, hi)` is
recorded in the fields; Qt guarantees `lo ≤ value ≤ hi`. -/
structure SpinBox where
  lo : Int
  hi : Int
  value : Int
deriving DecidableEq, Repr

/-- `QSpinBox.setValue`: Qt clamps an out-of-range value to the nearest
bound of the range. -/
def setValue (sb : SpinBox) (v : Int) : SpinBox :=
  { sb with value := min sb.hi (max sb.lo v) }

/-- `subsamples_spin` after `setRange(1, 9999)` and the initial
`setValue(10)` (main.py lines 173-175, 296). -/
def subsamples_spin : SpinBox := { lo := 1, hi := 9999, value := 10 }

/-- `outlier_spin` after `setRange(0, 99)` and the initial `setValue(30)`
(main.py lines 176-178, 297). -/
def outlier_spin : SpinBox := { lo := 0, hi := 99, value := 30 }

/-! ## Data model -/

/-- A stored measurement: `{y, linYError, shim, scrape}` in the canonical
base unit, as consumed by `update_table` (main.py line 475). -/
structure Sample where
  y : ℚ
  linYError : ℚ
  shim : ℚ
  scrape : ℚ
deriving DecidableEq, Repr

/-- Modelled from the spec: display units of `src.utils.units_of_measurements`
(the file is not in the tree); a fixed multiplicative table over the
canonical millimetre base. -/
inductive DisplayUnit where
  | mm : DisplayUnit
  | micron : DisplayUnit
  | inch : DisplayUnit
  | mil : DisplayUnit
deriving DecidableEq, Repr

/-- Modelled from the spec: the multiplicative display factor of each unit
relative to the canonical millimetre value. -/
def unitFactor : DisplayUnit → ℚ
  | DisplayUnit.mm => 1
  | DisplayUnit.micron => 1000
  | DisplayUnit.inch => 5 / 127
  | DisplayUnit.mil => 5000 / 127

/-- Session mode: the explicit tagged variant of an acquisition session
(spec section 3, `AcquisitionSession.mode`). -/
inductive SessionMode where
  | Zeroing : SessionMode
  | Sampling : SessionMode
deriving DecidableEq, Repr

/-- Modelled from the spec: a transient acquisition session
`{mode, replace_index, buffer, target_count}` (spec section 3). -/
structure Session where
  mode : SessionMode
  replaceIndex : Option Nat
  buffer : List ℚ
  targetCount : Nat
deriving DecidableEq, Repr

/-- State of `src.Core` (the file is not in the tree; fields are those read
and written by main.py: `samples`, `setting_zero_sample`, `subsamples`,
`outliers`, `units`, plus the spec's ZeroReference and the at-most-one
active session). -/
structure CoreState where
  samples : List Sample
  zero : ℚ
  settingZeroSample : Bool
  session : Option Session
  subsamples : Nat
  outliers : Nat
  units : DisplayUnit
deriving DecidableEq, Repr

/-- Session-level errors (spec section 7). -/
inductive AcqError where
  | AcquisitionConflict : AcqError
  | AcquisitionError : AcqError
deriving DecidableEq, Repr

/-- Modelled from the spec: `Core.start_sample(setting_zero, replacing_sample,
replacing_sample_index)` — rejected with `AcquisitionConflict` and no state
change if a session is already active; otherwise begins a fresh session with
an empty buffer and `target_count` = configured subsamples (spec 4.3). -/
def start_sample (setting_zero replacing_sample : Bool)
    (replacing_sample_index : Nat) (c : CoreState) : CoreState × Option AcqError :=
  match c.session with
  | some _ => (c, some AcqError.AcquisitionConflict)
  | none =>
    let mode := if setting_zero then SessionMode.Zeroing else SessionMode.Sampling
    let ridx := if replacing_sample then some replacing_sample_index else none
    ({ c with
        session := some { mode := mode, replaceIndex := ridx, buffer := [],
                          targetCount := c.subsamples },
        settingZeroSample := setting_zero }, none)

/-- Modelled from the spec: camera loss mid-session aborts with
`AcquisitionError` — the buffer is discarded, the session returns to idle
and no Sample is committed (spec 4.3, 7). -/
def abort_session (c : CoreState) : CoreState × Option AcqError :=
  match c.session with
  | some _ => ({ c with session := none }, some AcqError.AcquisitionError)
  | none => (c, none)

/-! ## Outlier rejection and session finalization -/

/-- Ascending insertion into a sorted list (the spec's "sort buffer
ascending", spec 4.3). -/
def insertAsc (x : ℚ) : List ℚ → List ℚ
  | [] => [x]
  | y :: ys => if x ≤ y then x :: y :: ys else y :: insertAsc x ys

/-- Insertion sort, ascending. -/
def sortAsc (l : List ℚ) : List ℚ := l.foldr insertAsc []

/-- Modelled from the spec: the number of readings trimmed from each end:
`k = floor(target_count * outlier_pct / 100)`, clamped for `outlier_pct ≥ 50`
so that at least one value remains (spec 4.3, 9). -/
def trimCount (N p : Nat) : Nat :=
  let k0 := N * p / 100
  if N ≤ 2 * k0 then (N - 1) / 2 else k0

/-- Modelled from the spec: the trimmed buffer — sort ascending, drop the
`k` smallest and the `k` largest readings (spec 4.3). -/
def trimmedBuffer (buf : List ℚ) (p : Nat) : List ℚ :=
  let N := buf.length
  let k := trimCount N p
  ((sortAsc buf).drop k).take (N - 2 * k)

/-- Modelled from the spec: the session's scalar output — the average of the
trimmed buffer (spec 4.3). -/
def finalizeBuffer (buf : List ℚ) (p : Nat) : ℚ :=
  (trimmedBuffer buf p).sum / ((trimmedBuffer buf p).length : ℚ)

/-! ## Flatness calculator -/

/-- Modelled from the spec: least-squares linear fit `y_fit(i) = a*i + b`
over sample index; degenerate cases 0 and 1 samples give a flat fit
(spec 4.4). -/
def fitLine (ys : List ℚ) : ℚ × ℚ :=
  if ys.length ≤ 1 then (0, ys.headD 0)
  else
    let n : ℚ := (ys.length : ℚ)
    let xs := (List.range ys.length).map (fun i => (i : ℚ))
    let sx := xs.sum
    let sy := ys.sum
    let sxy := ((xs.zip ys).map (fun q => q.1 * q.2)).sum
    let sxx := (xs.map (fun x => x * x)).sum
    let d := n * sxx - sx * sx
    let a := (n * sxy - sx * sy) / d
    let b := (sy - a * sx) / n
    (a, b)

/-- Modelled from the spec: recompute every sample's `linYError`, `shim` and
`scrape` against the trend fitted to the current sequence (spec 4.4). -/
def recomputeFlatness (samples : List Sample) : List Sample :=
  let ab := fitLine (samples.map (fun s => s.y))
  samples.mapIdx (fun i s =>
    let e := s.y - (ab.1 * (i : ℚ) + ab.2)
    { s with linYError := e, shim := max 0 (-e), scrape := max 0 e })

/-- Modelled from the spec: session commit (spec 4.3) — a zeroing session
sets the ZeroReference to the result and clears the Sample sequence; a
sampling session appends (or overwrites at `replace_index`) a Sample and
recomputes Flatness over the whole sequence. The session returns to idle. -/
def commit (c : CoreState) (result : ℚ) : CoreState :=
  match c.session with
  | none => c
  | some s =>
    match s.mode with
    | SessionMode.Zeroing =>
      { c with zero := result, samples := [], session := none,
               settingZeroSample := true }
    | SessionMode.Sampling =>
      let fresh : Sample := { y := result, linYError := 0, shim := 0, scrape := 0 }
      let cand := match s.replaceIndex with
        | some i => c.samples.set i fresh
        | none => c.samples ++ [fresh]
      { c with samples := recomputeFlatness cand, session := none,
               settingZeroSample := false }

/-- Modelled from the spec: run the active session to completion on a stream
of physical readings — each reading is zero-adjusted and accumulated until
`target_count` readings are buffered, then the buffer is finalized and
committed; with too few readings the session stays accumulating (spec 4.3). -/
def run_session (c : CoreState) (readings : List ℚ) : CoreState :=
  match c.session with
  | none => c
  | some s =>
    let buf := (s.buffer ++ readings.map (fun r => r - c.zero)).take s.targetCount
    if buf.length = s.targetCount then
      commit { c with session := some { s with buffer := buf } }
        (finalizeBuffer buf c.outliers)
    else
      { c with session := some { s with buffer := buf } }

/-! ## Main window orchestration (src/main.py) -/

/-- The `MainWindow` state relevant to the claims: the core, the enabled
state of the three acquisition buttons, the `setting_zero` / `replace_sample`
routing flags, the displayed sample-table rows (each row a list of display
values) and the table selection. -/
structure WinState where
  core : CoreState
  zeroBtnEnabled : Bool
  sampleBtnEnabled : Bool
  replaceBtnEnabled : Bool
  setting_zero : Bool
  replace_sample : Bool
  table_selected_index : Nat
  currentRow : Nat
  tableRows : List (List ℚ)
deriving DecidableEq, Repr

/-- `zero_btn_cmd` (main.py lines 630-644): select row 0, set the
`setting_zero` flag, disable the three buttons, clear `core.samples`
in place, then call `core.start_sample(True, ...)`. The second component
records the acquisition command issued to the core. -/
def zero_btn_cmd (w : WinState) : WinState × List SessionMode :=
  let w1 := { w with
      table_selected_index := 0,
      setting_zero := true, replace_sample := false,
      zeroBtnEnabled := false, sampleBtnEnabled := false,
      replaceBtnEnabled := false }
  let w2 := { w1 with core := { w1.core with samples := [] } }
  let r := start_sample true false 0 w2.core
  ({ w2 with core := r.1 }, [SessionMode.Zeroing])

/-- `sample_btn_cmd` (main.py lines 646-655): remember the selected row,
disable the three buttons, then call
`core.start_sample(self.setting_zero, False, 0)` — the mode of the issued
command comes from the window's `setting_zero` flag. -/
def sample_btn_cmd (w : WinState) : WinState × List SessionMode :=
  let w1 := { w with
      table_selected_index := w.currentRow,
      zeroBtnEnabled := false, sampleBtnEnabled := false,
      replaceBtnEnabled := false }
  let r := start_sample w1.setting_zero false 0 w1.core
  ({ w1 with core := r.1 },
   [if w1.setting_zero then SessionMode.Zeroing else SessionMode.Sampling])

/-- `QAbstractButton.click()` on the sample button: does nothing when the
button is disabled. -/
def click_sample_btn (w : WinState) : WinState × List SessionMode :=
  if w.sampleBtnEnabled then sample_btn_cmd w else (w, [])

/-- `QAbstractButton.click()` on the zero button: does nothing when the
button is disabled. -/
def click_zero_btn (w : WinState) : WinState × List SessionMode :=
  if w.zeroBtnEnabled then zero_btn_cmd w else (w, [])

/-- `on_cyclic_measurement` (main.py lines 401-406): on each scheduler
trigger, click the sample button if it is enabled, else click the zero
button. -/
def on_cyclic_measurement (w : WinState) : WinState × List SessionMode :=
  if w.sampleBtnEnabled then click_sample_btn w else click_zero_btn w

/-! ## Sample table, reset and CSV export -/

/-- A sample's value in the currently selected display unit. -/
def displayValue (u : DisplayUnit) (v : ℚ) : ℚ := v * unitFactor u

/-- One table row for a sample: `(measured, flattened, shim, scrape)` in the
display unit (main.py line 475; cell rendering by `TableUnit` is modelled
from the spec's multiplicative display conversion). -/
def sampleRow (u : DisplayUnit) (s : Sample) : List ℚ :=
  [displayValue u s.y, displayValue u s.linYError,
   displayValue u s.shim, displayValue u s.scrape]

/-- `update_table` (main.py lines 450-489): clear the table widget and
insert one row per `core.samples` entry, in order. -/
def update_table (w : WinState) : WinState :=
  { w with tableRows := w.core.samples.map (sampleRow w.core.units) }

/-- `reset_sample_table` (main.py lines 491-500): when the user confirms,
`sample_table.setRowCount(0)` clears the displayed rows; nothing else is
touched. -/
def reset_sample_table (w : WinState) (confirmed : Bool) : WinState :=
  if confirmed then { w with tableRows := [] } else w

/-- `export_csv` (main.py lines 353-370): write the current contents of the
table widget, row by row, to the chosen file; returns the written rows and
the unchanged window state. -/
def export_csv (w : WinState) : List (List ℚ) × WinState :=
  (w.tableRows, w)

/-! ## Remote command interface (socket completion handler) -/

/-- Outbound socket messages: `ZERO_COMPLETE` or `SAMPLE <v>`. -/
inductive SocketMsg where
  | zeroComplete : SocketMsg
  | sampleMsg : ℚ → SocketMsg
deriving DecidableEq, Repr

/-- `socket_server_sample_complete` (main.py lines 388-395): on completion,
send `ZERO_COMPLETE` if `core.setting_zero_sample` is set, otherwise send
`SAMPLE <samples[-1].y>`. `samples[-1]` on an empty list raises `IndexError`
and no message is sent, modelled by `none`. -/
def socket_server_sample_complete (setting_zero_sample : Bool)
    (samples : List Sample) : Option SocketMsg :=
  if setting_zero_sample then some SocketMsg.zeroComplete
  else
    match samples.getLast? with
    | some s => some (SocketMsg.sampleMsg s.y)
    | none => none

/-! ## Scheduler lemmas -/

theorem runSched_stopped (I D fuel : Nat) (s : SchedState)
    (h : s.running = false) : runSched I D fuel s = (0, s) := by
  cases fuel with
  | zero => rfl
  | succ f => simp [runSched, h]

theorem runSched_running (I D : Nat) :
    ∀ (fuel e : Nat), max (D / I - e) 1 ≤ fuel →
      runSched I D fuel { elapsed_cycles := e, running := true } =
        (max (D / I - e) 1,
         { elapsed_cycles := e + max (D / I - e) 1, running := false }) := by
  intro fuel
  induction fuel with
  | zero => intro e h; omega
  | succ f ih =>
    intro e h
    by_cases hstop : D / I ≤ e + 1
    · have h1 : max (D / I - e) 1 = 1 := by omega
      simp only [runSched, on_timer_tick, if_pos rfl]
      rw [if_pos hstop]
      rw [runSched_stopped I D f _ rfl]
      simp [h1]
    · have h2 : max (D / I - (e + 1)) 1 = D / I - (e + 1) := by omega
      have h3 : max (D / I - e) 1 = D / I - e := by omega
      have hf : max (D / I - (e + 1)) 1 ≤ f := by omega
      simp only [runSched, on_timer_tick, if_pos rfl]
      rw [if_neg hstop]
      rw [ih (e + 1) hf]
      simp only [if_true, Prod.mk.injEq, SchedState.mk.injEq, and_true]
      omega

/-! ## Claim C1: scheduler trigger count -/

/-- Claim C1, counterexample: with interval `I = 10` and duration `D = 5`
(both inside the accepted configuration range `[5, 3600]`), the claim
predicts `floor(5 / 10) = 0` triggers, but the scheduler fires its trigger
before the stop check, so exactly 1 trigger fires. -/
theorem C1_scheduler_counterexample :
    (runSched 10 5 10 start_cycle).1 = 1 ∧ (5 : Nat) / 10 = 0 := by
  constructor
  · rfl
  · rfl

/-- Claim C1 (amended): starting the cyclic scheduler resets the
elapsed-cycle counter to 0, and with cycle interval `I ≥ 1` and duration `D`
held constant the timer fires exactly `max (floor(D / I)) 1` triggers —
`floor(D / I)` whenever `D ≥ I` — and then stops automatically (the first
tick fires its trigger before the stop check, so a configuration with
`D < I` still fires one trigger). -/
theorem C1_scheduler_triggers (I D fuel : Nat) (hI : 1 ≤ I)
    (hfuel : D / I + 1 ≤ fuel) :
    start_cycle.elapsed_cycles = 0 ∧
    (runSched I D fuel start_cycle).1 = max (D / I) 1 ∧
    ((runSched I D fuel start_cycle).2).running = false := by
  have h : max (D / I - 0) 1 ≤ fuel := by
    generalize D / I = M at hfuel ⊢
    omega
  have hr := runSched_running I D fuel 0 h
  refine ⟨rfl, ?_, ?_⟩
  · rw [show start_cycle = { elapsed_cycles := 0, running := true } from rfl, hr]
    simp
  · rw [show start_cycle = { elapsed_cycles := 0, running := true } from rfl, hr]

/-- Claim C1, witness: `I = 10`, `D = 60` fires exactly `6` triggers and
then stops. -/
theorem C1_scheduler_triggers_witness :
    (runSched 10 60 7 start_cycle).1 = max (60 / 10) 1 ∧
    ((runSched 10 60 7 start_cycle).2).running = false :=
  ⟨(C1_scheduler_triggers 10 60 7 (by decide) (by decide)).2.1,
   (C1_scheduler_triggers 10 60 7 (by decide) (by decide)).2.2⟩

/-! ## Claim C7: configuration bounds -/

/-- Claim C7, counterexample: setting `outlier_pct` to the out-of-range
value 150 while the prior valid value is 30 does not retain the prior
configuration — Qt clamps the value to the range bound 99. -/
theorem C7_config_counterexample :
    outlier_spin.value = 30 ∧ (setValue outlier_spin 150).value = 99 := by
  constructor
  · rfl
  · rfl

/-- Claim C7 (amended): every configuration the program accepts satisfies
`subsamples ≥ 1` and `0 ≤ outlier_pct ≤ 99` — after any sequence of
`setValue` calls on the spin boxes, the held values remain inside the
declared ranges. A value outside the range is not rejected with the prior
value retained: it is clamped to the nearest bound
(`value = min hi (max lo v)`). -/
theorem C7_config_bounds :
    (∀ sb : SpinBox, ∀ v : Int, sb.lo ≤ sb.hi →
      (setValue sb v).value = min sb.hi (max sb.lo v) ∧
      sb.lo ≤ (setValue sb v).value ∧ (setValue sb v).value ≤ sb.hi) ∧
    (∀ vs : List Int,
      1 ≤ (vs.foldl setValue subsamples_spin).value ∧
      (vs.foldl setValue subsamples_spin).value ≤ 9999) ∧
    (∀ vs : List Int,
      0 ≤ (vs.foldl setValue outlier_spin).value ∧
      (vs.foldl setValue outlier_spin).value ≤ 99) := by
  have hrange : ∀ sb : SpinBox, ∀ v : Int, (setValue sb v).lo = sb.lo ∧
      (setValue sb v).hi = sb.hi := by
    intro sb v; exact ⟨rfl, rfl⟩
  have hfold : ∀ (vs : List Int) (sb : SpinBox), sb.lo ≤ sb.hi →
      sb.lo ≤ sb.value → sb.value ≤ sb.hi →
      (vs.foldl setValue sb).lo = sb.lo ∧ (vs.foldl setValue sb).hi = sb.hi ∧
      sb.lo ≤ (vs.foldl setValue sb).value ∧
      (vs.foldl setValue sb).value ≤ sb.hi := by
    intro vs
    induction vs with
    | nil => intro sb h1 h2 h3; exact ⟨rfl, rfl, h2, h3⟩
    | cons v vs ih =>
      intro sb h1 h2 h3
      have := ih (setValue sb v) (by simp [setValue]; try omega)
        (by simp [setValue]; try omega) (by simp [setValue]; try omega)
      simpa [setValue] using this
  refine ⟨?_, ?_, ?_⟩
  · intro sb v h
    exact ⟨rfl, by simp [setValue]; try omega, by simp [setValue]; try omega⟩
  · intro vs
    have := hfold vs subsamples_spin (by decide) (by decide) (by decide)
    exact ⟨this.2.2.1, this.2.2.2⟩
  · intro vs
    have := hfold vs outlier_spin (by decide) (by decide) (by decide)
    exact ⟨this.2.2.1, this.2.2.2⟩

/-- Claim C7, witness: concrete instantiation — `setValue` on a box with
range `[0, 99]` and value 30 clamps 150 to 99, staying in range, and a
concrete update sequence on the subsamples box keeps its value at least 1. -/
theorem C7_config_bounds_witness :
    ((setValue outlier_spin 150).value = min 99 (max 0 150) ∧
      (0 : Int) ≤ (setValue outlier_spin 150).value ∧
      (setValue outlier_spin 150).value ≤ 99) ∧
    (1 ≤ (([0, 5000, -7] : List Int).foldl setValue subsamples_spin).value ∧
      (([0, 5000, -7] : List Int).foldl setValue subsamples_spin).value ≤ 9999) :=
  ⟨C7_config_bounds.1 outlier_spin 150 (by decide),
   C7_config_bounds.2.1 [0, 5000, -7]⟩

/-! ## Claim C4: outlier rejection survivor count -/

theorem length_insertAsc (x : ℚ) (l : List ℚ) :
    (insertAsc x l).length = l.length + 1 := by
  induction l with
  | nil => rfl
  | cons y ys ih =>
    by_cases h : x ≤ y
    · simp [insertAsc, h]
    · simp [insertAsc, h, ih]

theorem length_sortAsc (l : List ℚ) : (sortAsc l).length = l.length := by
  induction l with
  | nil => rfl
  | cons y ys ih => simp [sortAsc, List.foldr] at ih ⊢; rw [length_insertAsc, ih]

theorem length_trimmedBuffer (buf : List ℚ) (p : Nat) :
    (trimmedBuffer buf p).length =
      min (buf.length - 2 * trimCount buf.length p)
        (buf.length - trimCount buf.length p) := by
  simp [trimmedBuffer, List.length_take, List.length_drop, length_sortAsc]

/-- Claim C4: finalizing a full buffer of `N ≥ 1` readings averages the
trimmed buffer — the sorted readings with the `k = floor(N*p/100)` smallest
and `k` largest dropped. For `p < 50` the averaged set has exactly
`N - 2*floor(N*p/100)` readings, always at least 1; for `p ≥ 50` the trim
count is clamped so at least one reading survives. -/
theorem C4_outlier_rejection (buf : List ℚ) (p : Nat) (hbuf : buf ≠ []) :
    (p < 50 →
      (trimmedBuffer buf p).length = buf.length - 2 * (buf.length * p / 100) ∧
      1 ≤ (trimmedBuffer buf p).length) ∧
    (50 ≤ p → 1 ≤ (trimmedBuffer buf p).length) ∧
    finalizeBuffer buf p =
      (trimmedBuffer buf p).sum / ((trimmedBuffer buf p).length : ℚ) := by
  have hN : 1 ≤ buf.length := by
    cases buf with
    | nil => exact absurd rfl hbuf
    | cons a l => simp
  constructor
  · intro hp
    have hdm : buf.length * p / 100 * 100 ≤ buf.length * p :=
      Nat.div_mul_le_self (buf.length * p) 100
    have hmono : buf.length * p ≤ buf.length * 49 :=
      Nat.mul_le_mul_left buf.length (by omega)
    have hk : 2 * (buf.length * p / 100) < buf.length := by omega
    have hcount : trimCount buf.length p = buf.length * p / 100 := by
      unfold trimCount
      rw [if_neg (by omega)]
    rw [length_trimmedBuffer, hcount]
    omega
  · constructor
    · intro _
      rw [length_trimmedBuffer]
      unfold trimCount
      by_cases hcl : buf.length ≤ 2 * (buf.length * p / 100)
      · rw [if_pos hcl]
        have hdiv : (buf.length - 1) / 2 * 2 ≤ buf.length - 1 :=
          Nat.div_mul_le_self (buf.length - 1) 2
        omega
      · rw [if_neg hcl]
        omega
    · rfl

/-- Claim C4, witness: the spec's own example — readings `[1,2,3,100,2]`,
`N = 5`, `p = 20` (< 50), trims one from each end and averages 3 readings. -/
theorem C4_outlier_rejection_witness :
    (trimmedBuffer [1, 2, 3, 100, 2] 20).length =
        ([1, 2, 3, 100, 2] : List ℚ).length - 2 * (([1, 2, 3, 100, 2] : List ℚ).length * 20 / 100) ∧
    1 ≤ (trimmedBuffer [1, 2, 3, 100, 2] 20).length :=
  (C4_outlier_rejection [1, 2, 3, 100, 2] 20 (by simp)).1 (by omega)

/-! ## Concrete example states for instantiations -/

/-- A concrete idle core with one committed sample. -/
def coreEx : CoreState :=
  { samples := [{ y := 1, linYError := 0, shim := 0, scrape := 0 }],
    zero := 2, settingZeroSample := false, session := none,
    subsamples := 2, outliers := 0, units := DisplayUnit.mm }

/-- A concrete idle window state over `coreEx` with the acquisition buttons
enabled. -/
def winEx : WinState :=
  { core := coreEx, zeroBtnEnabled := true, sampleBtnEnabled := true,
    replaceBtnEnabled := true, setting_zero := false, replace_sample := false,
    table_selected_index := 0, currentRow := 0, tableRows := [] }

/-- A concrete in-flight sampling session. -/
def sessionEx : Session :=
  { mode := SessionMode.Sampling, replaceIndex := none, buffer := [],
    targetCount := 2 }

/-- A concrete window state with an acquisition in flight: the session is
active and the three acquisition buttons are disabled, as `sample_btn_cmd`
leaves them. -/
def winBusyEx : WinState :=
  { core := { coreEx with session := some sessionEx },
    zeroBtnEnabled := false, sampleBtnEnabled := false,
    replaceBtnEnabled := false, setting_zero := false, replace_sample := false,
    table_selected_index := 0, currentRow := 0, tableRows := [] }

/-! ## Claim C2: zeroing clears the Sample sequence -/

/-- Claim C2: issuing a zeroing acquisition command clears the Sample
sequence at once, and after the zeroing session completes (the command was
issued while idle and enough readings arrive) the sequence still contains no
samples. -/
theorem C2_zeroing_clears (w : WinState) (readings : List ℚ)
    (hidle : w.core.session = none)
    (hlen : w.core.subsamples ≤ readings.length) :
    ((zero_btn_cmd w).1).core.samples = [] ∧
    (run_session ((zero_btn_cmd w).1).core readings).samples = [] := by
  have h1 : ((zero_btn_cmd w).1).core =
      { w.core with
        samples := [], settingZeroSample := true,
        session :=
          some (Session.mk SessionMode.Zeroing none [] w.core.subsamples) } := by
    simp [zero_btn_cmd, start_sample, hidle]
  refine ⟨by rw [h1], ?_⟩
  rw [h1]
  simp only [run_session]
  have hbuf : (([] ++ (readings.map (fun r => r - w.core.zero))).take
      w.core.subsamples).length = w.core.subsamples := by
    simp [List.length_take]
    omega
  simp [hbuf, commit]
  split <;> rfl

/-- Claim C2, witness: a window with one committed sample and subsamples 2,
zeroed with readings `[3, 4]`, ends with an empty Sample sequence. -/
theorem C2_zeroing_clears_witness :
    ((zero_btn_cmd winEx).1).core.samples = [] ∧
    (run_session ((zero_btn_cmd winEx).1).core [3, 4]).samples = [] :=
  C2_zeroing_clears winEx [3, 4] rfl (by decide)

/-! ## Claim C3: failed commands and committed data -/

/-- Claim C3, counterexample: a zeroing command issued while a session is
active (reachable through the socket's `ZERO`, which calls `zero_btn_cmd`
directly) is rejected with `AcquisitionConflict`, yet the previously
committed Sample sequence has been cleared — it is not left unchanged. -/
theorem C3_failure_counterexample :
    winBusyEx.core.samples ≠ [] ∧
    (start_sample true false 0 winBusyEx.core).2 =
      some AcqError.AcquisitionConflict ∧
    ((zero_btn_cmd winBusyEx).1).core.samples = [] := by
  refine ⟨?_, rfl, rfl⟩
  simp [winBusyEx, coreEx]

/-- Claim C3 (amended): session-level failures leave the ZeroReference and
the in-flight session intact and commit no Sample — a rejected sampling
command changes nothing at all, and a camera-loss abort discards only the
session — but a zeroing command clears the Sample sequence at issue time,
before its session starts, so a zeroing command whose session is rejected or
aborted leaves the sequence empty rather than unchanged. -/
theorem C3_failure_isolation :
    (∀ w : WinState,
      ((zero_btn_cmd w).1).core.zero = w.core.zero ∧
      ((zero_btn_cmd w).1).core.samples = [] ∧
      (w.core.session.isSome = true →
        ((zero_btn_cmd w).1).core.session = w.core.session)) ∧
    (∀ w : WinState, w.core.session.isSome = true →
      ((sample_btn_cmd w).1).core = w.core) ∧
    (∀ c : CoreState, c.session.isSome = true →
      start_sample false false 0 c = (c, some AcqError.AcquisitionConflict) ∧
      (abort_session c).1.samples = c.samples ∧
      (abort_session c).1.zero = c.zero ∧
      (abort_session c).2 = some AcqError.AcquisitionError) := by
  refine ⟨?_, ?_, ?_⟩
  · intro w
    cases hs : w.core.session with
    | none => simp [zero_btn_cmd, start_sample, hs]
    | some s => simp [zero_btn_cmd, start_sample, hs]
  · intro w hw
    cases hs : w.core.session with
    | none => rw [hs] at hw; simp at hw
    | some s => simp [sample_btn_cmd, start_sample, hs]
  · intro c hc
    cases hs : c.session with
    | none => rw [hs] at hc; simp at hc
    | some s => simp [start_sample, abort_session, hs]

/-- Claim C3, witness: concrete instantiation at a window with an active
session — the rejected sampling command changes nothing, the zero command
leaves the session and ZeroReference alone, and the conflict is reported. -/
theorem C3_failure_isolation_witness :
    ((zero_btn_cmd winBusyEx).1).core.session = winBusyEx.core.session ∧
    ((sample_btn_cmd winBusyEx).1).core = winBusyEx.core ∧
    start_sample false false 0 winBusyEx.core =
      (winBusyEx.core, some AcqError.AcquisitionConflict) :=
  ⟨(C3_failure_isolation.1 winBusyEx).2.2 rfl,
   C3_failure_isolation.2.1 winBusyEx rfl,
   (C3_failure_isolation.2.2 winBusyEx.core rfl).1⟩

/-! ## Claim C5: cyclic trigger dispatch -/

/-- Claim C5, counterexample: a scheduler trigger that arrives while an
acquisition is pending (the sample and zero buttons are both disabled)
issues no acquisition command at all — `click()` on a disabled button does
nothing — rather than exactly one. -/
theorem C5_cyclic_counterexample :
    (on_cyclic_measurement winBusyEx).2 = [] := rfl

/-- Claim C5 (amended): each firing of the cyclic scheduler issues at most
one acquisition command — a Sampling command when the take-sample action is
enabled, a Zeroing command when take-sample is disabled but the zero button
is enabled, and no command when both are disabled (acquisition pending). -/
theorem C5_cyclic_dispatch (w : WinState) (h : w.setting_zero = false) :
    (on_cyclic_measurement w).2 =
      (if w.sampleBtnEnabled then [SessionMode.Sampling]
       else if w.zeroBtnEnabled then [SessionMode.Zeroing] else []) ∧
    (on_cyclic_measurement w).2.length ≤ 1 := by
  unfold on_cyclic_measurement click_sample_btn click_zero_btn
  by_cases hs : w.sampleBtnEnabled <;> by_cases hz : w.zeroBtnEnabled <;>
    simp [hs, hz, sample_btn_cmd, zero_btn_cmd, h]

/-- Claim C5, witness: with take-sample enabled (and the zeroing flag off),
the trigger issues exactly one Sampling command. -/
theorem C5_cyclic_dispatch_witness :
    (on_cyclic_measurement winEx).2 =
      (if winEx.sampleBtnEnabled then [SessionMode.Sampling]
       else if winEx.zeroBtnEnabled then [SessionMode.Zeroing] else []) :=
  (C5_cyclic_dispatch winEx rfl).1

/-! ## Claim C6: completion messages on the remote interface -/

/-- Claim C6: when an acquisition session completes with the remote command
interface connected, exactly one outbound message is sent, selected by the
completion flag — `ZERO_COMPLETE` for a zeroing session, otherwise
`SAMPLE <v>` where `v` is the `y` value of the last Sample in the
sequence. -/
theorem C6_completion_message (flag : Bool) (samples : List Sample)
    (s : Sample) (h : flag = false → samples.getLast? = some s) :
    socket_server_sample_complete flag samples =
      some (if flag then SocketMsg.zeroComplete else SocketMsg.sampleMsg s.y) := by
  cases flag with
  | true => simp [socket_server_sample_complete]
  | false => simp [socket_server_sample_complete, h rfl]

/-- Claim C6, witness: a non-zeroing completion with last sample `y = 2`
sends exactly the message `SAMPLE 2`; instantiated through the theorem. -/
theorem C6_completion_message_witness :
    socket_server_sample_complete false
        [{ y := 2, linYError := 0, shim := 0, scrape := 0 }] =
      some (if false then SocketMsg.zeroComplete
            else SocketMsg.sampleMsg
              ({ y := 2, linYError := 0, shim := 0, scrape := 0 } : Sample).y) :=
  C6_completion_message false
    [{ y := 2, linYError := 0, shim := 0, scrape := 0 }]
    { y := 2, linYError := 0, shim := 0, scrape := 0 } (fun _ => rfl)

/-! ## Claim C10: unguarded last-element access -/

/-- Claim C10: the remote-interface completion handler for a non-zeroing
session reads the last element of the Sample sequence with no emptiness
guard — the access (and hence the sending of a message) succeeds exactly
when the Sample sequence is non-empty. -/
theorem C10_unguarded_last_access (samples : List Sample) :
    (socket_server_sample_complete false samples).isSome = true ↔
      samples ≠ [] := by
  cases hlast : samples.getLast? with
  | none =>
    have hnil : samples = [] := List.getLast?_eq_none_iff.mp hlast
    simp [socket_server_sample_complete, hlast, hnil]
  | some s =>
    have hne : samples ≠ [] := by
      intro hnil
      rw [hnil] at hlast
      simp at hlast
    simp [socket_server_sample_complete, hlast, hne]

/-! ## Claim C8: CSV export -/

/-- Claim C8, counterexample: after a confirmed table reset, the core still
stores one Sample but the export writes zero rows — the export reads the
table widget, not the Sample sequence, so it is not always one row per
stored Sample. -/
theorem C8_export_counterexample :
    (export_csv (reset_sample_table (update_table winEx) true)).1 = [] ∧
    (reset_sample_table (update_table winEx) true).core.samples.length = 1 :=
  ⟨rfl, rfl⟩

/-- Claim C8 (amended): CSV export changes no state at all — in particular
the Sample sequence and ZeroReference are identical before and after — and
it writes the displayed table rows; whenever the table was last refreshed
from the core (`update_table`, which itself changes no core state), that is
exactly one row per stored Sample, in sequence order, with columns
`(measured, flattened, shim, scrape)` in the currently selected display
unit. A table reset can leave the export empty while samples remain
stored. -/
theorem C8_export_reads_table (w : WinState) :
    (export_csv w).2 = w ∧
    (export_csv (update_table w)).1 =
      w.core.samples.map (sampleRow w.core.units) ∧
    (update_table w).core = w.core :=
  ⟨rfl, rfl, rfl⟩

/-! ## Claim C9: reset clears only the table widget -/

/-- Claim C9: a confirmed Reset clears only the displayed rows of the
sample table; the core (Sample sequence and ZeroReference) is unchanged, and
the next table refresh repopulates one row per stored sample. A declined
confirmation changes nothing. -/
theorem C9_reset_table_only (w : WinState) :
    (reset_sample_table w true).core = w.core ∧
    (reset_sample_table w true).tableRows = [] ∧
    (update_table (reset_sample_table w true)).tableRows =
      w.core.samples.map (sampleRow w.core.units) ∧
    reset_sample_table w false = w :=
  ⟨rfl, rfl, rfl, rfl⟩

end LaserLevel
